import Mathlib

/-
Verification of the transaction-processing orchestrator of the
python_excercises repository against its specification.

The embedding follows the Python sources:
- `Liskov` embeds src/SOLID/src/solid_principles/liskov_substitution/after.py
- `ISeg` embeds src/SOLID/src/solid_principles/interfaces_segregations/after.py
- `Ch01` embeds src/functional_programming/chapter01/ch01_ex1.py

Python exceptions are modelled with `Except`: a raised exception is an
`Except.error` value, an exception-free run is `Except.ok`.  Exception
messages raised by the validators are mapped to the named validation-error
variants of the specification (the mapping is recorded on `ValidationError`).
External side effects (gateway calls, outbound customer messages, audit-sink
writes) are modelled as an explicit `Effect` trace; `print` calls to stdout
carry no audit content and are not traced.  The external collaborators
(payment gateway, notifier) are parameters of the orchestration, matching
the injected `payment_processor` / `notifier` fields of `PaymentService`.
-/

/-- The `status`, `amount` and `id` fields of a Stripe charge object, the only
fields the repository reads. -/
structure Charge where
  id : String
  status : String
  amount : Int
deriving DecidableEq

/-- Validation-error variants of the specification, one per distinct
`raise ValueError` site of the two validators:
`MissingName` is the raise with message "Invalid customer data: missing name",
`MissingContactInfo` the raise with message "Invalid customer data: missing contact_info",
`NoReachableChannel` the raise with message "Invalid customer data: missing email and phone",
`MissingSource` the raise with message "Invalid payment data",
`NonPositiveAmount` the raise with message
"Invalid payment data: amount must be greater than 0". -/
inductive ValidationError where
  | MissingName
  | MissingContactInfo
  | NoReachableChannel
  | MissingSource
  | NonPositiveAmount
deriving DecidableEq

/-- Python exceptions that can escape the embedded functions: a validation
`ValueError`, a plain `ValueError` raised by the charge processor, an
exception raised by an injected notifier, and an `AttributeError` from an
access to a missing attribute. -/
inductive PyError where
  | validation (e : ValidationError)
  | valueError (msg : String)
  | notification (msg : String)
  | attributeError (attr : String)
deriving DecidableEq

/-- Observable external side effects of one orchestration call: a
create-charge gateway call, one outbound confirmation message, and one
appended audit-sink line. -/
inductive Effect where
  | gatewayCharge (amount : Int) (currency source description : String)
  | sentMessage (recipient subject body : String)
  | sinkLine (line : String)
deriving DecidableEq

/-- The audit-sink lines of an effect trace, in order. -/
def sinkLines : List Effect → List String
  | [] => []
  | Effect.sinkLine s :: es => s :: sinkLines es
  | _ :: es => sinkLines es

namespace Liskov

/-- ContactInfo from liskov_substitution/after.py: optional email and phone. -/
structure ContactInfo where
  email : Option String
  phone : Option String
deriving DecidableEq

/-- CustomerData from liskov_substitution/after.py: a name and a required
`contact_info` field (pydantic gives the field no default, so every
constructed CustomerData holds a ContactInfo object). -/
structure CustomerData where
  name : String
  contact_info : ContactInfo
deriving DecidableEq

/-- PaymentData from liskov_substitution/after.py. -/
structure PaymentData where
  amount : Int
  source : String
deriving DecidableEq

/-- Python truthiness of an `Optional[str]` value: `None` and the empty
string are falsy, every other string is truthy. -/
def optStrTruthy : Option String → Bool
  | none => false
  | some s => !(s = "")

/-- Python truthiness of a ContactInfo value: a pydantic `BaseModel`
instance defines no falsiness, so `not customer_data.contact_info` is
always `False`, whatever the field values are. -/
def contactInfoTruthy (_info : ContactInfo) : Bool := true

/-- CustomerValidator.validate: checks name truthiness, then contact_info
truthiness, then that at least one of email and phone is truthy, raising on
the first failed check. -/
def CustomerValidator.validate (customer_data : CustomerData) :
    Except ValidationError Unit :=
  if customer_data.name = "" then
    .error .MissingName
  else if !(contactInfoTruthy customer_data.contact_info) then
    .error .MissingContactInfo
  else if !(optStrTruthy customer_data.contact_info.email ||
            optStrTruthy customer_data.contact_info.phone) then
    .error .NoReachableChannel
  else
    .ok ()

/-- PaymentDataValidator.validate: checks source truthiness first, then that
amount is strictly positive. -/
def PaymentDataValidator.validate (payment_data : PaymentData) :
    Except ValidationError Unit :=
  if payment_data.source = "" then
    .error .MissingSource
  else if payment_data.amount ≤ 0 then
    .error .NonPositiveAmount
  else
    .ok ()

/-- The opaque gateway capability behind `stripe.Charge.create`, taking
amount, currency, source and description; a `StripeError` is modelled as its
message string. -/
def Gateway := Int → String → String → String → Except String Charge

/-- StripePaymentProcessor.process_transaction from liskov_substitution:
calls create-charge and returns the charge unchanged on success; on
`StripeError` it raises `ValueError("Payment processing failed")`.  The
trace records the gateway call, which happens in both cases. -/
def StripePaymentProcessor.process_transaction (gw : Gateway)
    (customer_data : CustomerData) (payment_data : PaymentData) :
    Except PyError Charge × List Effect :=
  let description := "Payment from " ++ customer_data.name
  (match gw payment_data.amount "usd" payment_data.source description with
   | .ok charge => .ok charge
   | .error _e => .error (.valueError "Payment processing failed"),
   [Effect.gatewayCharge payment_data.amount "usd" payment_data.source description])

/-- The injected notifier capability: `send_confirmation` either raises or
returns the outbound-message effects it performed. -/
def Notifier := CustomerData → Except PyError (List Effect)

/-- EmailNotifier.send_confirmation from liskov_substitution: composes one
fixed confirmation message whose recipient is `contact_info.email or ""` and
emits it; it raises nothing, also when email is absent. -/
def EmailNotifier.send_confirmation (customer_data : CustomerData) :
    Except PyError (List Effect) :=
  .ok [Effect.sentMessage (customer_data.contact_info.email.getD "")
        "Payment Confirmation" "Thank you for your payment"]

/-- TransactionLogger.log from liskov_substitution: appends the two audit
lines for one transaction to the sink. -/
def TransactionLogger.log (customer_data : CustomerData)
    (payment_data : PaymentData) (charge : Charge) : List Effect :=
  [Effect.sinkLine (customer_data.name ++ " paid " ++ toString payment_data.amount),
   Effect.sinkLine ("Payment status: " ++ charge.status)]

/-- PaymentService.process_transaction from liskov_substitution: customer
validation, then payment validation, then the processor (whose raised
errors propagate: the `except StripeError` clause only re-raises), then the
notifier (a raised error propagates before the logger runs), then the
logger, returning the charge.  The second component is the trace of
external effects performed before the call returned or raised. -/
def PaymentService.process_transaction (gw : Gateway) (notifier : Notifier)
    (customer_data : CustomerData) (payment_data : PaymentData) :
    Except PyError Charge × List Effect :=
  match CustomerValidator.validate customer_data with
  | .error e => (.error (.validation e), [])
  | .ok _ =>
    match PaymentDataValidator.validate payment_data with
    | .error e => (.error (.validation e), [])
    | .ok _ =>
      let pr := StripePaymentProcessor.process_transaction gw customer_data payment_data
      match pr.1 with
      | .error e => (.error e, pr.2)
      | .ok charge =>
        match notifier customer_data with
        | .error e => (.error e, pr.2)
        | .ok msgs =>
          (.ok charge, pr.2 ++ msgs ++ TransactionLogger.log customer_data payment_data charge)

/-- A gateway stub that always succeeds with charge id ch_1, echoing the
requested amount. -/
def okGateway : Gateway :=
  fun amount _currency _source _description =>
    .ok { id := "ch_1", status := "succeeded", amount := amount }

/-- A gateway stub that always fails with a declined-card StripeError. -/
def declineGateway : Gateway :=
  fun _amount _currency _source _description => .error "Your card was declined."

/-- A notifier stub that always raises, modelling an unreachable channel. -/
def failingNotifier (msg : String) : Notifier :=
  fun _customer_data => .error (.notification msg)

/-- The customer of the Alice scenario. -/
def aliceCustomer : CustomerData :=
  { name := "Alice", contact_info := { email := some "alice@x.com", phone := none } }

/-- The payment of the Alice scenario. -/
def alicePayment : PaymentData := { amount := 100, source := "tok_visa" }

/-- The customer of the Bob scenario. -/
def bobCustomer : CustomerData :=
  { name := "Bob", contact_info := { email := none, phone := some "+1555" } }

/-- The zero-amount payment of the Bob scenario. -/
def zeroPayment : PaymentData := { amount := 0, source := "tok_visa" }

/-- A customer reachable only by phone, with no email address. -/
def noEmailCustomer : CustomerData :=
  { name := "Carol", contact_info := { email := none, phone := some "+1555" } }

end Liskov

namespace ISeg

/-- ContactInfo from interfaces_segregations/after.py. -/
structure ContactInfo where
  email : Option String
  phone : Option String
deriving DecidableEq

/-- CustomerData from interfaces_segregations/after.py: name, contact info,
and an optional gateway-assigned customer id. -/
structure CustomerData where
  name : String
  contact_info : ContactInfo
  customer_id : Option String
deriving DecidableEq

/-- PaymentData from interfaces_segregations/after.py. -/
structure PaymentData where
  amount : Int
  source : String
deriving DecidableEq

/-- PaymentResponse from interfaces_segregations/after.py: the uniform
result type of the three processor operations. -/
structure PaymentResponse where
  status : String
  amount : Int
  transaction_id : Option String
  message : Option String
deriving DecidableEq

/-- The `status`, `amount` and `id` fields of a Stripe refund object. -/
structure Refund where
  id : String
  status : String
  amount : Int
deriving DecidableEq

/-- A Stripe customer object; only its `id` field is read. -/
structure StripeCustomer where
  id : String
deriving DecidableEq

/-- The opaque gateway capability used by the segregated-interface
processor: create-charge (amount, currency, source, description) and
create-refund (charge id).  A `StripeError` is modelled as its message
string. -/
structure Gateway where
  create_charge : Int → String → String → String → Except String Charge
  create_refund : String → Except String Refund

/-- StripePaymentProcessor.process_transaction from interfaces_segregations:
on gateway success builds a PaymentResponse from the charge fields with
message "Payment Successful"; on `StripeError` returns, without raising, a
PaymentResponse with status "failed", the input amount, no transaction id
and the error text as message. -/
def StripePaymentProcessor.process_transaction (gw : Gateway)
    (customer_data : CustomerData) (payment_data : PaymentData) :
    Except PyError PaymentResponse :=
  match gw.create_charge payment_data.amount "usd" payment_data.source
      ("Charge for " ++ customer_data.name) with
  | .ok charge =>
    .ok { status := charge.status, amount := charge.amount,
          transaction_id := some charge.id, message := some "Payment Successful" }
  | .error e =>
    .ok { status := "failed", amount := payment_data.amount,
          transaction_id := none, message := some e }

/-- StripePaymentProcessor.refund_payment from interfaces_segregations: on
gateway success builds a PaymentResponse from the refund fields; on
`StripeError` returns, without raising, a PaymentResponse with status
"failed", amount 0, no transaction id and the error text as message. -/
def StripePaymentProcessor.refund_payment (gw : Gateway)
    (transaction_id : String) : Except PyError PaymentResponse :=
  match gw.create_refund transaction_id with
  | .ok refund =>
    .ok { status := refund.status, amount := refund.amount,
          transaction_id := some refund.id, message := some "Refund Succesful" }
  | .error e =>
    .ok { status := "failed", amount := 0, transaction_id := none,
          message := some e }

/-- StripePaymentProcessor._get_or_create_customer from
interfaces_segregations: its body is the single statement `pass`, so the
call returns `None` whatever the customer data is. -/
def StripePaymentProcessor._get_or_create_customer
    (_customer_data : CustomerData) : Option StripeCustomer := none

/-- StripePaymentProcessor.recurring_payment from interfaces_segregations.
The body first calls `_get_or_create_customer` (which returns `None`), then
evaluates `self._attach_payment_method`; the class defines no
`_attach_payment_method` (nor `_set_default_payment_method`), so this
attribute access raises `AttributeError` on every call, before any gateway
operation runs.  The surrounding `except StripeError` clause does not catch
`AttributeError`, so the exception propagates; the except branch that would
build a PaymentResponse with status "Failed" and amount 0 is unreachable. -/
def StripePaymentProcessor.recurring_payment (_gw : Gateway)
    (customer_data : CustomerData) (_payment_data : PaymentData) :
    Except PyError PaymentResponse :=
  let _customer := StripePaymentProcessor._get_or_create_customer customer_data
  .error (.attributeError "_attach_payment_method")

/-- A segregated-interface gateway stub whose operations always fail with a
declined-card StripeError. -/
def declineGateway : Gateway :=
  { create_charge := fun _amount _currency _source _description =>
      .error "Your card was declined.",
    create_refund := fun _charge_id => .error "Charge has already been refunded." }

/-- A sample customer for the segregated-interface processor. -/
def sampleCustomer : CustomerData :=
  { name := "Alice",
    contact_info := { email := some "alice@x.com", phone := none },
    customer_id := none }

/-- A sample payment for the segregated-interface processor. -/
def samplePayment : PaymentData := { amount := 100, source := "tok_visa" }

end ISeg

namespace Ch01

/-- sum_numeric from ch01_ex1.py: the imperative loop over range(1, 10)
accumulating the n with n % 3 == 0 or n % 5 == 0.  The loop is folded over
the list of loop indices; the accumulated total is the value the function
prints. -/
def sum_numeric : Int :=
  ((List.range' 1 9).map (fun n => (n : Int))).foldl
    (fun s n => if n % 3 == 0 || n % 5 == 0 then s + n else s) 0

/-- foldr from ch01_ex1.py: returns init on the empty list, and otherwise
applies op to the head and the BUILT-IN sum of the tail (not a recursive
fold with op and init). -/
def foldr (seq : List Int) (op : Int → Int → Int) (init : Int) : Int :=
  match seq with
  | [] => init
  | x :: rest => op x rest.sum

/-- until from ch01_ex1.py (here named with a trailing underscore since the
source name is a Lean keyword): the list of v, v+1, ... below n that satisfy
filter_func.  The Python recursion only stops on v == n; the extra `fuel`
argument bounds the recursion depth so the embedding is total, and a run
that exhausts the fuel (where the Python call would not terminate) returns
the empty list. -/
def until_ (fuel : Nat) (n : Int) (filter_func : Int → Bool) (v : Int) :
    List Int :=
  match fuel with
  | 0 => []
  | f + 1 =>
    if v = n then []
    else if filter_func v then v :: until_ f n filter_func (v + 1)
    else until_ f n filter_func (v + 1)

/-- The mult_3_5 lambda of sum_functional. -/
def mult_3_5 (x : Int) : Bool := x % 3 == 0 || x % 5 == 0

/-- The add lambda of sum_functional. -/
def add (x y : Int) : Int := x + y

/-- sum_functional from ch01_ex1.py: foldr over until(10, mult_3_5, 1) with
add and 0.  Ten units of fuel cover the ten calls the Python recursion from
v = 1 to v = 10 performs. -/
def sum_functional : Int := foldr (until_ 10 10 mult_3_5 1) add 0

end Ch01

/-- C2: with customer Alice (email alice@x.com), payment 100 from tok_visa,
and a gateway that always succeeds with charge id ch_1, the orchestrator
returns the succeeded charge of amount 100 with id ch_1, and the audit sink
receives exactly the lines "Alice paid 100" and "Payment status: succeeded",
in that order. -/
theorem c2_alice_success_scenario :
  Liskov.PaymentService.process_transaction Liskov.okGateway
      Liskov.EmailNotifier.send_confirmation Liskov.aliceCustomer Liskov.alicePayment
    = (.ok { id := "ch_1", status := "succeeded", amount := 100 },
       [.gatewayCharge 100 "usd" "tok_visa" "Payment from Alice",
        .sentMessage "alice@x.com" "Payment Confirmation" "Thank you for your payment",
        .sinkLine "Alice paid 100", .sinkLine "Payment status: succeeded"]) ∧
  sinkLines (Liskov.PaymentService.process_transaction Liskov.okGateway
      Liskov.EmailNotifier.send_confirmation Liskov.aliceCustomer Liskov.alicePayment).2
    = ["Alice paid 100", "Payment status: succeeded"] := ⟨rfl, rfl⟩

/-- C10: sum_functional evaluates to 23, the same total sum_numeric
computes over the multiples of 3 or 5 in the interval from 1 below 10,
with until(10, mult_3_5, 1) producing the list 3, 5, 6, 9. -/
theorem c10_sum_functional_equals_sum_numeric :
  Ch01.sum_functional = 23 ∧ Ch01.sum_numeric = 23 ∧
  Ch01.until_ 10 10 Ch01.mult_3_5 1 = [3, 5, 6, 9] ∧
  Ch01.sum_functional = Ch01.sum_numeric := ⟨rfl, rfl, rfl, rfl⟩

/-- C1 counterexample: the Liskov-substitution charge processor, run against
a gateway whose create-charge fails, raises ValueError instead of returning
a failed PaymentResult, refuting the claim that no processor variant raises
on gateway failure. -/
theorem c1_counterexample_liskov_processor_raises :
  (Liskov.StripePaymentProcessor.process_transaction Liskov.declineGateway
      Liskov.aliceCustomer Liskov.alicePayment).1
    = .error (.valueError "Payment processing failed") := rfl

/-- C1 amended: only the segregated-interface charge and refund operations
convert gateway failure into a failed result without raising (charge echoes
the input amount, refund reports amount 0, both with no transaction id and
the gateway error text as message); the recurring operation raises
AttributeError on every call, before any gateway operation, because its
helper methods are missing, and the Liskov-substitution charge processor
raises ValueError on gateway failure. -/
theorem c1_amended_gateway_failure_conversion :
  (∀ (gw : ISeg.Gateway) (c : ISeg.CustomerData) (p : ISeg.PaymentData) (e : String),
      gw.create_charge p.amount "usd" p.source ("Charge for " ++ c.name) = .error e →
      ISeg.StripePaymentProcessor.process_transaction gw c p
        = .ok { status := "failed", amount := p.amount, transaction_id := none,
                message := some e }) ∧
  (∀ (gw : ISeg.Gateway) (tid e : String),
      gw.create_refund tid = .error e →
      ISeg.StripePaymentProcessor.refund_payment gw tid
        = .ok { status := "failed", amount := 0, transaction_id := none,
                message := some e }) ∧
  (∀ (gw : ISeg.Gateway) (c : ISeg.CustomerData) (p : ISeg.PaymentData),
      ISeg.StripePaymentProcessor.recurring_payment gw c p
        = .error (.attributeError "_attach_payment_method")) ∧
  (∀ (gw : Liskov.Gateway) (c : Liskov.CustomerData) (p : Liskov.PaymentData) (e : String),
      gw p.amount "usd" p.source ("Payment from " ++ c.name) = .error e →
      (Liskov.StripePaymentProcessor.process_transaction gw c p).1
        = .error (.valueError "Payment processing failed")) := by
  refine ⟨?_, ?_, ?_, ?_⟩
  · intro gw c p e h
    simp [ISeg.StripePaymentProcessor.process_transaction, h]
  · intro gw tid e h
    simp [ISeg.StripePaymentProcessor.refund_payment, h]
  · intro gw c p
    rfl
  · intro gw c p e h
    simp [Liskov.StripePaymentProcessor.process_transaction, h]

/-- C1 witness: the amended conversion contract evaluated on the concrete
always-declining gateway. -/
theorem c1_amended_gateway_failure_conversion_witness :
  ISeg.StripePaymentProcessor.process_transaction ISeg.declineGateway
      ISeg.sampleCustomer ISeg.samplePayment
    = .ok { status := "failed", amount := 100, transaction_id := none,
            message := some "Your card was declined." } :=
  c1_amended_gateway_failure_conversion.1 ISeg.declineGateway ISeg.sampleCustomer
    ISeg.samplePayment "Your card was declined." rfl

/-- C3 counterexample: for the payment with amount 0 and empty source,
validation fails with MissingSource, not NonPositiveAmount, refuting the
claim that amount is checked regardless of the source value. -/
theorem c3_counterexample_zero_amount_empty_source :
  Liskov.PaymentDataValidator.validate { amount := 0, source := "" }
    = .error .MissingSource ∧
  Liskov.PaymentDataValidator.validate { amount := 0, source := "" }
    ≠ .error .NonPositiveAmount := by
  constructor
  · rfl
  · intro h
    simp [Liskov.PaymentDataValidator.validate] at h

/-- C3 amended: the source check runs first, so a PaymentData with
non-positive amount fails with NonPositiveAmount exactly when its source is
non-empty; with an empty source it fails with MissingSource instead. -/
theorem c3_amended_source_checked_first :
  (∀ p : Liskov.PaymentData, p.amount ≤ 0 → p.source ≠ "" →
      Liskov.PaymentDataValidator.validate p = .error .NonPositiveAmount) ∧
  (∀ p : Liskov.PaymentData, p.source = "" →
      Liskov.PaymentDataValidator.validate p = .error .MissingSource) := by
  constructor
  · intro p h hs
    simp [Liskov.PaymentDataValidator.validate, hs, h]
  · intro p hs
    simp [Liskov.PaymentDataValidator.validate, hs]

/-- C3 witness: the amended validator contract evaluated on concrete
payments of amount -5. -/
theorem c3_amended_source_checked_first_witness :
  Liskov.PaymentDataValidator.validate { amount := -5, source := "tok_visa" }
    = .error .NonPositiveAmount ∧
  Liskov.PaymentDataValidator.validate { amount := -5, source := "" }
    = .error .MissingSource :=
  ⟨c3_amended_source_checked_first.1 { amount := -5, source := "tok_visa" }
      (by decide) (by decide),
   c3_amended_source_checked_first.2 { amount := -5, source := "" } rfl⟩

/-- C4: whenever customer or payment validation fails, the orchestration
call ends with a validation error and an empty effect trace, so no
processor, notifier or logger call occurred; in particular the Bob scenario
with a zero amount fails with NonPositiveAmount and the sink receives zero
lines. -/
theorem c4_validation_aborts_before_effects :
  (∀ (gw : Liskov.Gateway) (nt : Liskov.Notifier)
     (c : Liskov.CustomerData) (p : Liskov.PaymentData),
      ((∃ e, Liskov.CustomerValidator.validate c = .error e) ∨
       (∃ e, Liskov.PaymentDataValidator.validate p = .error e)) →
      ∃ e, Liskov.PaymentService.process_transaction gw nt c p
        = (.error (.validation e), [])) ∧
  Liskov.PaymentService.process_transaction Liskov.okGateway
      Liskov.EmailNotifier.send_confirmation Liskov.bobCustomer Liskov.zeroPayment
    = (.error (.validation .NonPositiveAmount), []) := by
  constructor
  · intro gw nt c p h
    rcases h with ⟨e, he⟩ | ⟨e, he⟩
    · exact ⟨e, by simp [Liskov.PaymentService.process_transaction, he]⟩
    · cases hc : Liskov.CustomerValidator.validate c with
      | error e2 =>
        exact ⟨e2, by simp [Liskov.PaymentService.process_transaction, hc]⟩
      | ok u =>
        exact ⟨e, by simp [Liskov.PaymentService.process_transaction, hc, he]⟩
  · rfl

/-- C4 witness: the validation-abort contract evaluated on a concrete
customer with an empty name. -/
theorem c4_validation_aborts_before_effects_witness :
  ∃ e, Liskov.PaymentService.process_transaction Liskov.okGateway
      Liskov.EmailNotifier.send_confirmation
      { name := "", contact_info := { email := none, phone := none } }
      Liskov.alicePayment
    = (.error (.validation e), []) :=
  c4_validation_aborts_before_effects.1 Liskov.okGateway
    Liskov.EmailNotifier.send_confirmation
    { name := "", contact_info := { email := none, phone := none } }
    Liskov.alicePayment (Or.inl ⟨.MissingName, rfl⟩)

/-- C5 counterexample: with a gateway that succeeds and a notifier that
raises, the orchestration call returns the notifier error and its trace
holds only the gateway charge: the logger was never invoked and the sink
received zero lines, refuting the claim that a notifier failure is
non-fatal and logging still happens. -/
theorem c5_counterexample_notifier_failure_skips_logger :
  Liskov.PaymentService.process_transaction Liskov.okGateway
      (Liskov.failingNotifier "SMTP unreachable") Liskov.aliceCustomer Liskov.alicePayment
    = (.error (.notification "SMTP unreachable"),
       [.gatewayCharge 100 "usd" "tok_visa" "Payment from Alice"]) ∧
  sinkLines (Liskov.PaymentService.process_transaction Liskov.okGateway
      (Liskov.failingNotifier "SMTP unreachable") Liskov.aliceCustomer
      Liskov.alicePayment).2
    = [] := ⟨rfl, rfl⟩

/-- C5 amended: a notifier failure after a successful charge leaves the
charge standing (the gateway-charge effect stays in the trace and nothing
reverses it) but it is fatal to the rest of the pipeline: the notifier
error propagates to the caller and the logger is never invoked, so the
trace carries no audit-sink line. -/
theorem c5_amended_notifier_failure_fatal :
  ∀ (gw : Liskov.Gateway) (c : Liskov.CustomerData) (p : Liskov.PaymentData)
    (msg : String) (ch : Charge),
    Liskov.CustomerValidator.validate c = .ok () →
    Liskov.PaymentDataValidator.validate p = .ok () →
    gw p.amount "usd" p.source ("Payment from " ++ c.name) = .ok ch →
    Liskov.PaymentService.process_transaction gw (Liskov.failingNotifier msg) c p
      = (.error (.notification msg),
         [.gatewayCharge p.amount "usd" p.source ("Payment from " ++ c.name)]) := by
  intro gw c p msg ch hc hp hgw
  simp [Liskov.PaymentService.process_transaction, hc, hp,
        Liskov.StripePaymentProcessor.process_transaction, hgw,
        Liskov.failingNotifier]

/-- C5 witness: the amended notifier-failure contract evaluated on the
concrete Alice scenario with a failing notifier. -/
theorem c5_amended_notifier_failure_fatal_witness :
  Liskov.PaymentService.process_transaction Liskov.okGateway
      (Liskov.failingNotifier "down") Liskov.aliceCustomer Liskov.alicePayment
    = (.error (.notification "down"),
       [.gatewayCharge 100 "usd" "tok_visa" "Payment from Alice"]) :=
  c5_amended_notifier_failure_fatal Liskov.okGateway Liskov.aliceCustomer
    Liskov.alicePayment "down" { id := "ch_1", status := "succeeded", amount := 100 }
    rfl rfl rfl

/-- C6 counterexample: for a customer without email, send_confirmation
succeeds and sends one message with an empty recipient, refuting the claim
that it signals a no-email-channel error rather than succeeding. -/
theorem c6_counterexample_no_email_still_succeeds :
  Liskov.EmailNotifier.send_confirmation Liskov.noEmailCustomer
    = .ok [.sentMessage "" "Payment Confirmation" "Thank you for your payment"] := rfl

/-- C6 amended: send_confirmation never signals an error: it always sends
exactly one outbound message, addressed to the email value when present and
to the empty string when the email is absent. -/
theorem c6_amended_email_notifier_never_fails :
  ∀ c : Liskov.CustomerData,
    Liskov.EmailNotifier.send_confirmation c
      = .ok [.sentMessage (c.contact_info.email.getD "")
              "Payment Confirmation" "Thank you for your payment"] := by
  intro c
  rfl

/-- C7: an empty customer name makes CustomerValidator.validate fail with
MissingName, the first check, and the orchestration call then aborts with
that validation error and an empty effect trace, so the processor is never
reached. -/
theorem c7_empty_name_missing_name :
  (∀ c : Liskov.CustomerData, c.name = "" →
      Liskov.CustomerValidator.validate c = .error .MissingName) ∧
  (∀ (gw : Liskov.Gateway) (nt : Liskov.Notifier)
     (c : Liskov.CustomerData) (p : Liskov.PaymentData),
      c.name = "" →
      Liskov.PaymentService.process_transaction gw nt c p
        = (.error (.validation .MissingName), [])) := by
  constructor
  · intro c h
    simp [Liskov.CustomerValidator.validate, h]
  · intro gw nt c p h
    have hv : Liskov.CustomerValidator.validate c = .error .MissingName := by
      simp [Liskov.CustomerValidator.validate, h]
    simp [Liskov.PaymentService.process_transaction, hv]

/-- C7 witness: the empty-name contract evaluated on a concrete customer. -/
theorem c7_empty_name_missing_name_witness :
  Liskov.CustomerValidator.validate
      { name := "", contact_info := { email := some "x@y.com", phone := none } }
    = .error .MissingName ∧
  Liskov.PaymentService.process_transaction Liskov.okGateway
      Liskov.EmailNotifier.send_confirmation
      { name := "", contact_info := { email := some "x@y.com", phone := none } }
      Liskov.alicePayment
    = (.error (.validation .MissingName), []) :=
  ⟨c7_empty_name_missing_name.1
      { name := "", contact_info := { email := some "x@y.com", phone := none } } rfl,
   c7_empty_name_missing_name.2 Liskov.okGateway Liskov.EmailNotifier.send_confirmation
      { name := "", contact_info := { email := some "x@y.com", phone := none } }
      Liskov.alicePayment rfl⟩

/-- C8: on every successful orchestration call the returned charge is
exactly the value the processor produced: the notifier and logger stages
leave its content unchanged. -/
theorem c8_result_passthrough :
  ∀ (gw : Liskov.Gateway) (nt : Liskov.Notifier) (c : Liskov.CustomerData)
    (p : Liskov.PaymentData) (ch : Charge) (tr : List Effect),
    Liskov.PaymentService.process_transaction gw nt c p = (.ok ch, tr) →
    (Liskov.StripePaymentProcessor.process_transaction gw c p).1 = .ok ch := by
  intro gw nt c p ch tr h
  simp only [Liskov.PaymentService.process_transaction] at h
  cases hc : Liskov.CustomerValidator.validate c <;> rw [hc] at h
  case error e => simp at h
  case ok u =>
    cases hp : Liskov.PaymentDataValidator.validate p <;> rw [hp] at h
    case error e => simp at h
    case ok v =>
      cases hpr : (Liskov.StripePaymentProcessor.process_transaction gw c p).1 <;>
        rw [hpr] at h
      case error e => simp at h
      case ok charge =>
        cases hnt : nt c <;> rw [hnt] at h
        case error e => simp at h
        case ok msgs =>
          simp at h
          rw [h.1]

/-- C8 witness: the pass-through contract evaluated on the concrete Alice
scenario. -/
theorem c8_result_passthrough_witness :
  (Liskov.StripePaymentProcessor.process_transaction Liskov.okGateway
      Liskov.aliceCustomer Liskov.alicePayment).1
    = .ok { id := "ch_1", status := "succeeded", amount := 100 } :=
  c8_result_passthrough Liskov.okGateway Liskov.EmailNotifier.send_confirmation
    Liskov.aliceCustomer Liskov.alicePayment
    { id := "ch_1", status := "succeeded", amount := 100 }
    [.gatewayCharge 100 "usd" "tok_visa" "Payment from Alice",
     .sentMessage "alice@x.com" "Payment Confirmation" "Thank you for your payment",
     .sinkLine "Alice paid 100", .sinkLine "Payment status: succeeded"] rfl

/-- C9 counterexample: the customer with empty name and no reachable
channel fails with MissingName, not NoReachableChannel, refuting the claim
that customers with no reachable channel always fail with
NoReachableChannel. -/
theorem c9_counterexample_empty_name_no_channel :
  Liskov.CustomerValidator.validate
      { name := "", contact_info := { email := none, phone := none } }
    = .error .MissingName ∧
  Liskov.CustomerValidator.validate
      { name := "", contact_info := { email := none, phone := none } }
    ≠ .error .NoReachableChannel := by
  constructor
  · rfl
  · intro h
    simp [Liskov.CustomerValidator.validate] at h

/-- C9 amended: the MissingContactInfo branch of CustomerValidator.validate
is unreachable for every customer, and a customer with a non-empty name but
no truthy email or phone fails with NoReachableChannel; with an empty name
the earlier MissingName check fires first. -/
theorem c9_amended_missing_contact_info_unreachable :
  (∀ c : Liskov.CustomerData,
      Liskov.CustomerValidator.validate c ≠ .error .MissingContactInfo) ∧
  (∀ c : Liskov.CustomerData, c.name ≠ "" →
      Liskov.optStrTruthy c.contact_info.email = false →
      Liskov.optStrTruthy c.contact_info.phone = false →
      Liskov.CustomerValidator.validate c = .error .NoReachableChannel) := by
  constructor
  · intro c
    simp only [Liskov.CustomerValidator.validate, Liskov.contactInfoTruthy]
    split
    · simp
    · split
      · simp_all
      · split <;> simp
  · intro c h he hp
    simp [Liskov.CustomerValidator.validate, Liskov.contactInfoTruthy, h, he, hp]

/-- C9 witness: the amended contract evaluated on a concrete named customer
with neither email nor phone. -/
theorem c9_amended_missing_contact_info_unreachable_witness :
  Liskov.CustomerValidator.validate
      { name := "Dave", contact_info := { email := none, phone := none } }
    = .error .NoReachableChannel :=
  c9_amended_missing_contact_info_unreachable.2
    { name := "Dave", contact_info := { email := none, phone := none } }
    (by decide) rfl rfl
